import Mathlib

/-!
Verification of the hazeljs-csr-agent repository's specification against a
shallow embedding of its source.

The repository is an example application built on hazeljs framework packages
(`@hazeljs/agent`, `@hazeljs/rag`, `@hazeljs/websocket`).  The code under
`src/` wires a customer-support agent: `CSRService` (orchestration, approval
handlers, session ids, source extraction, knowledge-base fallback),
`CSRAgent` (tool definitions), `CSRController` (REST endpoints) and
`CSRGateway` (WebSocket).  Framework internals (the approval gate inside
`AgentRuntime`, the agent loop) are not part of the repository; where a claim
depends on them they are modelled from the specification and marked
`Modelled from the spec:` in the doc comment.
-/

namespace HazelCSR

/-! ## Approval gate and `CSRService` approval plumbing -/

/-- Resolution state of an ApprovalRequest (spec section 3):
`pending -> approved | rejected | timed_out`. -/
inductive Resolution where
  | pending
  | approved
  | rejected
  | timedOut
deriving DecidableEq, Repr

/-- Gate-side record for one ApprovalRequest: its resolution and, for manual
resolutions, the identity string of the resolver. -/
structure GateState where
  resolution : Resolution
  resolvedBy : Option String
deriving DecidableEq, Repr

/-- Modelled from the spec: `ApprovalGate.resolve` inside `@hazeljs/agent`
(not under `src/`).  Spec section 4.2: each request resolves exactly once;
a resolve call on an already-resolved request is a no-op, never an error. -/
def gateResolve (g : GateState) (target : Resolution) (who : Option String) :
    GateState :=
  if g.resolution = Resolution.pending then
    { resolution := target, resolvedBy := who }
  else g

/-- Per-request state seen by `CSRService`: the gate record plus whether a
transport-local approval handler is registered in `approvalHandlers`
(`csr.service` part of `csr.controller.ts`). -/
structure ReqState where
  gate : GateState
  handler : Bool
deriving DecidableEq, Repr

/-- `CSRService.approveTool(requestId, approved, approvedBy)`: forwards to
`runtime.approveToolExecution` / `rejectToolExecution`, then resolves and
deletes any registered transport-local handler. -/
def approveTool (s : ReqState) (approved : Bool) (approvedBy : String) :
    ReqState :=
  let g :=
    if approved then gateResolve s.gate Resolution.approved (some approvedBy)
    else gateResolve s.gate Resolution.rejected none
  { gate := g, handler := false }

/-- The 30-second timer callback scheduled by the `TOOL_APPROVAL_REQUESTED`
handler in `CSRService`: `if (this.approvalHandlers.has(requestId)) return;
this.runtime.approveToolExecution(requestId, 'auto-timeout')`. -/
def timerFire (s : ReqState) : ReqState :=
  if s.handler then s
  else { s with gate := gateResolve s.gate Resolution.approved (some "auto-timeout") }

/-- Modelled from the spec: the gate's own deadline expiry (spec section 4.2),
auto-resolving a still-pending request to `timed_out`.  The deadline
bookkeeping lives in `@hazeljs/agent`, not under `src/`. -/
def deadlineExpire (s : ReqState) : ReqState :=
  { s with gate := gateResolve s.gate Resolution.timedOut none }

/-- Events that can race against each other for one ApprovalRequest. -/
inductive ApprovalEvent where
  | manualResolve (approved : Bool) (approvedBy : String)
  | autoTimerFire
  | gateDeadline
deriving DecidableEq, Repr

/-- One event applied to the per-request state. -/
def stepEvent (s : ReqState) (e : ApprovalEvent) : ReqState :=
  match e with
  | ApprovalEvent.manualResolve approved approvedBy => approveTool s approved approvedBy
  | ApprovalEvent.autoTimerFire => timerFire s
  | ApprovalEvent.gateDeadline => deadlineExpire s

/-- Folding a list of racing events over the request state. -/
def runEvents (s : ReqState) (es : List ApprovalEvent) : ReqState :=
  es.foldl stepEvent s

/-- Number of effective resolution transitions (pending to non-pending)
performed while running the events. -/
def transitionCount (s : ReqState) : List ApprovalEvent → Nat
  | [] => 0
  | e :: es =>
    let t := stepEvent s e
    (if s.gate.resolution = Resolution.pending ∧
        t.gate.resolution ≠ Resolution.pending then 1 else 0) +
      transitionCount t es

/-- A freshly registered ApprovalRequest: pending, with or without a
transport-local handler. -/
def freshReq (handler : Bool) : ReqState :=
  { gate := { resolution := Resolution.pending, resolvedBy := none },
    handler := handler }

/-- JavaScript truthiness of an optional string: `undefined` and the empty
string are falsy. -/
def jsTruthy (s : Option String) : Bool :=
  match s with
  | none => false
  | some v => v ≠ ""

/-- Immediate decision of the `TOOL_APPROVAL_REQUESTED` event handler in
`CSRService`: skip when a transport-local handler is registered for the id,
otherwise schedule the 30-second auto-approve timer. -/
inductive HandlerDecision where
  | ignore
  | scheduleAutoApprove (delayMs : Nat)
deriving DecidableEq, Repr

/-- The `TOOL_APPROVAL_REQUESTED` handler body in `CSRService`'s constructor:
`if (requestId && this.approvalHandlers.has(requestId)) return;` then
`if (requestId) setTimeout(..., 30000)`. -/
def onToolApprovalRequested (requestId : Option String)
    (handlers : List String) : HandlerDecision :=
  if jsTruthy requestId ∧ requestId.getD "" ∈ handlers then
    HandlerDecision.ignore
  else if jsTruthy requestId then HandlerDecision.scheduleAutoApprove 30000
  else HandlerDecision.ignore

/-- The scheduled timer's callback body applied to the gate record of the
request: `if (approvalHandlers.has(requestId)) return;
runtime.approveToolExecution(requestId, 'auto-timeout')`. -/
def autoTimerCallback (rid : String) (handlers : List String)
    (g : GateState) : GateState :=
  if rid ∈ handlers then g
  else gateResolve g Resolution.approved (some "auto-timeout")

/-! ## Agent loop (step limit) -/

/-- One decision of the language-model capability inside the loop. -/
inductive ModelDecision where
  | finalAnswer (text : String)
  | toolCall (toolName : String) (args : String)
deriving DecidableEq, Repr

/-- Status of a sealed Execution (spec section 3). -/
inductive ExecStatus where
  | completed
  | stepLimitExceeded
  | failed
deriving DecidableEq, Repr

/-- One AgentStep recorded in an Execution. -/
structure AgentStep where
  index : Nat
  toolName : String
  result : String
deriving DecidableEq, Repr

/-- Execution record sealed at the end of one chat turn. -/
structure Execution where
  steps : List AgentStep
  status : ExecStatus
  response : String
deriving DecidableEq, Repr

/-- Modelled from the spec: `AgentLoop.run` of `@hazeljs/agent` (not under
`src/`), spec section 4.1.  Each iteration first checks whether
`index == maxSteps` is reached (sealing with `step_limit_exceeded` and a
best-effort response), otherwise consults the model: a final answer seals
with `completed`, a tool call appends an AgentStep and continues; if the
model capability yields nothing further the Execution seals `failed` with a
generic message. -/
def runLoopFrom (maxSteps : Nat) : List ModelDecision → List AgentStep → Execution
  | [], steps =>
    if steps.length = maxSteps then
      { steps := steps, status := ExecStatus.stepLimitExceeded,
        response := "best-effort response" }
    else
      { steps := steps, status := ExecStatus.failed,
        response := "I could not generate a response." }
  | d :: ds, steps =>
    if steps.length = maxSteps then
      { steps := steps, status := ExecStatus.stepLimitExceeded,
        response := "best-effort response" }
    else
      match d with
      | ModelDecision.finalAnswer text =>
        { steps := steps, status := ExecStatus.completed, response := text }
      | ModelDecision.toolCall toolName args =>
        runLoopFrom maxSteps ds
          (steps ++ [{ index := steps.length, toolName := toolName, result := args }])

/-- The step budget configured for the csr-agent: `maxSteps: 15` in the
`@Agent` decorator of `csr.agent.ts` and `defaultMaxSteps: 15` in the
`AgentRuntime` construction of `CSRService`. -/
def csrMaxSteps : Nat := 15

/-- One `runtime.execute('csr-agent', ...)` call: the loop run from an empty
step list under the configured budget. -/
def csrExecute (decisions : List ModelDecision) : Execution :=
  runLoopFrom csrMaxSteps decisions []

/-! ## Transport error frames -/

/-- A JavaScript thrown value: an `Error` instance carrying a message, or any
other value. -/
inductive Thrown where
  | err (message : String)
  | nonError
deriving DecidableEq, Repr

/-- JavaScript `String(error)`: an `Error` instance stringifies to
`"Error: " ++ message`. -/
def jsStringOfThrown (t : Thrown) : String :=
  match t with
  | Thrown.err m => "Error: " ++ m
  | Thrown.nonError => "[object Object]"

/-- The expression `error instanceof Error ? error.message : 'Unknown error'`
used by `CSRGateway.handleChatMessage` and `CSRAgent.searchKnowledgeBase`. -/
def jsErrorMessage (t : Thrown) : String :=
  match t with
  | Thrown.err m => m
  | Thrown.nonError => "Unknown error"

/-- One SSE frame written by `CSRController.chatStream`. -/
inductive SSEFrame where
  | response (payload : String)
  | errorFrame (errText : String)
deriving DecidableEq, Repr

/-- Body of `CSRController.chatStream`: on success write a `response` frame
with the chat payload, on a thrown error write an `error` frame carrying
`String(error)`. -/
def chatStream (result : Except Thrown String) : SSEFrame :=
  match result with
  | Except.ok r => SSEFrame.response r
  | Except.error e => SSEFrame.errorFrame (jsStringOfThrown e)

/-- Message of the `error` frame sent by `CSRGateway.handleChatMessage`'s
catch block. -/
def wsErrorMessage (t : Thrown) : String :=
  jsErrorMessage t

/-- Text carried by an SSE frame. -/
def frameText : SSEFrame → String
  | SSEFrame.response p => p
  | SSEFrame.errorFrame e => e

/-- Whether `pat` is a prefix of `l` (character lists). -/
def leadsWith : List Char → List Char → Bool
  | [], _ => true
  | _ :: _, [] => false
  | a :: as, b :: bs => a = b && leadsWith as bs

/-- Whether `needle` occurs contiguously inside the character list. -/
def occursIn (needle : List Char) : List Char → Bool
  | [] => leadsWith needle []
  | c :: cs => leadsWith needle (c :: cs) || occursIn needle cs

/-- Whether `needle` occurs as a contiguous substring of `hay`. -/
def strContains (hay needle : String) : Bool :=
  occursIn needle.data hay.data

/-! ## Sources extraction and session ids in `CSRService.chat` -/

/-- One retrieved document as surfaced in the `sources` list. -/
structure SourceDoc where
  id : String
  content : String
  score : Rat
  metadata : List (String × String)
deriving DecidableEq, Repr

/-- The `action` field of a runtime step as read by `CSRService.chat`. -/
structure StepAction where
  type : String
  toolName : String
deriving DecidableEq, Repr

/-- One step of the Execution as scanned by `CSRService.chat`: the optional
action and the optional `result.output.documents` list. -/
structure ChatStep where
  action : Option StepAction
  documents : Option (List SourceDoc)
deriving DecidableEq, Repr

/-- The condition `action?.type === 'use_tool' &&
action.toolName === 'searchKnowledgeBase'` of the scanning loop in
`CSRService.chat`. -/
def stepWantsSources (st : ChatStep) : Bool :=
  match st.action with
  | some a => a.type = "use_tool" && a.toolName = "searchKnowledgeBase"
  | none => false

/-- The scanning loop of `CSRService.chat`: for each step whose action has
`type === 'use_tool'` and `toolName === 'searchKnowledgeBase'`, push every
document of `step.result.output.documents` onto `sources`, in order. -/
def extractSources : List ChatStep → List SourceDoc
  | [] => []
  | st :: rest =>
    (if stepWantsSources st then st.documents.getD [] else []) ++
      extractSources rest

/-- The `sources` field of the returned payload:
`sources.length > 0 ? sources : undefined`. -/
def chatSources (steps : List ChatStep) : Option (List SourceDoc) :=
  let sources := extractSources steps
  if 0 < sources.length then some sources else none

/-- Whether a step is a `use_tool` invocation of `searchKnowledgeBase`. -/
def isKnowledgeSearchStep (st : ChatStep) : Bool :=
  match st.action with
  | some a => a.type = "use_tool" && a.toolName = "searchKnowledgeBase"
  | none => false

/-- The flattening as the specification words it: the concatenation, in step
order, of the documents found in the output of every step whose action is
`use_tool` with tool `searchKnowledgeBase` (reference definition written from
the spec sentence, compared with the source's extraction loop). -/
def specSourcesFlatten (steps : List ChatStep) : List SourceDoc :=
  ((steps.filter isKnowledgeSearchStep).map (fun st => st.documents.getD [])).flatten

/-- Session id assignment in `CSRService.chat`:
`const sid = sessionId || 'session-' + Date.now()`. -/
def genSessionId (nowMs : Nat) : String :=
  "session-" ++ toString nowMs

/-- The `sid` used and echoed by `CSRService.chat`, given the optional client
session id and the current `Date.now()` millisecond timestamp. -/
def chatSessionId (sessionId : Option String) (nowMs : Nat) : String :=
  if jsTruthy sessionId then sessionId.getD "" else genSessionId nowMs

/-! ## Knowledge backend fallback, ingest, search and health -/

/-- Knowledge-backend state held by `CSRService`: which store is active,
whether its initialization completed, and the contents indexed into it. -/
structure RagState where
  usingLocal : Bool
  ready : Bool
  docs : List String
deriving DecidableEq, Repr

/-- `CSRService.initialize`: try `ragService.initialize()`; when it throws,
build a fresh `MemoryVectorStore`-backed `RAGService` and initialize that
instead (the local store always initializes).  The catch block contains no
logging call, so the second component — the warnings logged on this path —
is empty.  `preferredLocal` records whether the startup selection already
chose the local store. -/
def csrServiceInit (preferredLocal : Bool) (preferredInitFails : Bool) :
    RagState × List String :=
  if preferredInitFails then
    ({ usingLocal := true, ready := true, docs := [] }, [])
  else
    ({ usingLocal := preferredLocal, ready := true, docs := [] }, [])

/-- `CSRService.ingestDocument`: indexes the title and content concatenated
with a blank line. -/
def ingestDocument (s : RagState) (title content : String) : RagState :=
  { s with docs := s.docs ++ [title ++ "\n\n" ++ content] }

/-- Modelled from the spec: the active store's `search` returns the stored
documents matching the query (spec section 8: a search after ingest returns a
document whose content contains the searched text).  The vector search lives
in `@hazeljs/rag`, not under `src/`. -/
def ragSearch (s : RagState) (query : String) : List String :=
  s.docs.filter (fun d => strContains d query)

/-- Modelled from the spec: `runtime.healthCheck` of `@hazeljs/agent` throws
only when the active knowledge backend has not completed initialization. -/
def healthCheckFails (s : RagState) : Bool :=
  !s.ready

/-- `CSRController.health`: `try` the runtime health check and report
`status: 'ok'`; report `status: 'degraded'` only when it throws. -/
def healthEndpoint (s : RagState) : String :=
  if healthCheckFails s then "degraded" else "ok"

/-! ## Knowledge-base search tool -/

/-- Return shape of `CSRAgent.searchKnowledgeBase`. -/
structure KBSearchResult where
  success : Bool
  query : Option String
  documents : List SourceDoc
  totalResults : Option Nat
  error : Option String
deriving DecidableEq, Repr

/-- `CSRAgent.searchKnowledgeBase`: wraps `ragService.search` in try/catch;
success returns the mapped documents with `totalResults`, a thrown error
returns `success: false`, the error summary and an empty document list. -/
def searchKnowledgeBase (query : String)
    (searchOutcome : Except Thrown (List SourceDoc)) : KBSearchResult :=
  match searchOutcome with
  | Except.ok results =>
    { success := true, query := some query, documents := results,
      totalResults := some results.length, error := none }
  | Except.error t =>
    { success := false, query := none, documents := [],
      totalResults := none, error := some (jsErrorMessage t) }

/-! ## WebSocket gateway message handling -/

/-- A JavaScript value as it may appear in the `text` field of an incoming
frame's data (`undef` covers a missing field). -/
inductive JsVal where
  | str (s : String)
  | num (n : Int)
  | boolVal (b : Bool)
  | undef
  | objVal
deriving DecidableEq, Repr

/-- Whether the value is a JavaScript string. -/
def JsVal.isStr : JsVal → Bool
  | JsVal.str _ => true
  | _ => false

/-- Observable actions of the gateway when handling one frame. -/
inductive GatewayAction where
  | sendFrame (event : String) (message : String)
  | startChat (text : String)
  | closeConnection
deriving DecidableEq, Repr

/-- `CSRGateway.handleMessage` on a frame with the given event name and
`data.text` value: for a `message` event,
`if (!text || typeof text !== 'string')` send an `error` frame and return,
otherwise start `handleChatMessage` with the text. -/
def handleMessage (event : String) (text : JsVal) : List GatewayAction :=
  if event = "message" then
    match text with
    | JsVal.str s =>
      if s = "" then
        [GatewayAction.sendFrame "error" "Invalid message: text is required"]
      else [GatewayAction.startChat s]
    | _ => [GatewayAction.sendFrame "error" "Invalid message: text is required"]
  else []

/-! ## REST approve endpoint over the keyed service state -/

/-- Service-wide approval state: the gate's request table keyed by request id
and the transport-local handler ids. -/
structure ServiceState where
  requests : List (String × GateState)
  handlers : List String
deriving DecidableEq, Repr

/-- Modelled from the spec: `runtime.approveToolExecution` /
`rejectToolExecution` resolve the request with the given id in the gate's
correlation table; an unknown or already-resolved id is a no-op, never an
error (spec sections 4.2 and 9). -/
def runtimeResolve (reqs : List (String × GateState)) (rid : String)
    (target : Resolution) (who : Option String) : List (String × GateState) :=
  reqs.map (fun p => if p.1 = rid then (p.1, gateResolve p.2 target who) else p)

/-- `CSRService.approveTool` over the full service state: resolve through the
runtime, then drop any transport-local handler registered for the id.  The
return type carries no success information (the method returns `void`). -/
def serviceApproveTool (s : ServiceState) (rid : String) (approved : Bool)
    (approvedBy : String) : ServiceState :=
  let reqs :=
    if approved then
      runtimeResolve s.requests rid Resolution.approved (some approvedBy)
    else runtimeResolve s.requests rid Resolution.rejected none
  { requests := reqs, handlers := s.handlers.filter (fun h => h ≠ rid) }

/-- `CSRController.approve`: call `approveTool` and answer `success: true`. -/
def approveEndpoint (s : ServiceState) (rid : String) (approved : Bool)
    (approvedBy : String) : ServiceState × Bool :=
  (serviceApproveTool s rid approved approvedBy, true)

/-! ## Helper lemmas -/

/-- Helper: once a request is resolved, any further event leaves the gate
record unchanged. -/
theorem stepEvent_gate_stable (s : ReqState) (e : ApprovalEvent)
    (h : s.gate.resolution ≠ Resolution.pending) :
    (stepEvent s e).gate = s.gate := by
  cases e with
  | manualResolve approved approvedBy =>
    simp only [stepEvent, approveTool, gateResolve]
    cases approved <;> simp [h]
  | autoTimerFire =>
    simp only [stepEvent, timerFire, gateResolve]
    by_cases hh : s.handler <;> simp [h, hh]
  | gateDeadline =>
    simp only [stepEvent, deadlineExpire, gateResolve]
    simp [h]

/-- Helper: an event never un-resolves a request. -/
theorem stepEvent_not_pending (s : ReqState) (e : ApprovalEvent)
    (h : s.gate.resolution ≠ Resolution.pending) :
    (stepEvent s e).gate.resolution ≠ Resolution.pending := by
  rw [stepEvent_gate_stable s e h]; exact h

/-- Helper: starting from a resolved request, the transition count is zero. -/
theorem transitionCount_resolved (es : List ApprovalEvent) :
    ∀ s : ReqState, s.gate.resolution ≠ Resolution.pending →
      transitionCount s es = 0 := by
  induction es with
  | nil => intro s _; rfl
  | cons e es ih =>
    intro s h
    simp only [transitionCount]
    rw [if_neg (by intro hc; exact h hc.1)]
    rw [ih (stepEvent s e) (stepEvent_not_pending s e h)]

/-- Helper: for any starting state, at most one effective transition occurs. -/
theorem transitionCount_le_one (es : List ApprovalEvent) :
    ∀ s : ReqState, transitionCount s es ≤ 1 := by
  induction es with
  | nil => intro s; exact Nat.zero_le 1
  | cons e es ih =>
    intro s
    simp only [transitionCount]
    by_cases hc : s.gate.resolution = Resolution.pending ∧
        (stepEvent s e).gate.resolution ≠ Resolution.pending
    · rw [if_pos hc, transitionCount_resolved es (stepEvent s e) hc.2]
    · rw [if_neg hc, Nat.zero_add]; exact ih (stepEvent s e)

/-- Helper: the gate's deadline expiry always resolves a pending request. -/
theorem runEvents_deadline_resolves (es : List ApprovalEvent) :
    ∀ s : ReqState, ApprovalEvent.gateDeadline ∈ es →
      (runEvents s es).gate.resolution ≠ Resolution.pending := by
  induction es with
  | nil => intro s h; cases h
  | cons e es ih =>
    intro s h
    by_cases hp : (stepEvent s e).gate.resolution = Resolution.pending
    · -- the head event left the request pending, so it was not the deadline
      have he : e ≠ ApprovalEvent.gateDeadline := by
        intro heq
        subst heq
        simp only [stepEvent, deadlineExpire, gateResolve] at hp
        by_cases hpend : s.gate.resolution = Resolution.pending
        · rw [if_pos hpend] at hp; exact Resolution.noConfusion hp
        · rw [if_neg hpend] at hp; exact hpend hp
      have hmem : ApprovalEvent.gateDeadline ∈ es := by
        cases h with
        | head => exact absurd rfl he
        | tail _ hm => exact hm
      exact ih (stepEvent s e) hmem
    · -- already resolved after the head event; stability closes it
      have : ∀ es2 : List ApprovalEvent, ∀ t : ReqState,
          t.gate.resolution ≠ Resolution.pending →
          (runEvents t es2).gate.resolution ≠ Resolution.pending := by
        intro es2
        induction es2 with
        | nil => intro t ht; exact ht
        | cons e2 es2 ih2 =>
          intro t ht
          exact ih2 (stepEvent t e2) (stepEvent_not_pending t e2 ht)
      exact this es (stepEvent s e) hp

/-- Helper: if no effective transition is counted, a pending request stays
pending throughout. -/
theorem transitionCount_zero_pending (es : List ApprovalEvent) :
    ∀ s : ReqState, s.gate.resolution = Resolution.pending →
      transitionCount s es = 0 →
      (runEvents s es).gate.resolution = Resolution.pending := by
  induction es with
  | nil => intro s hp _; exact hp
  | cons e es ih =>
    intro s hp hz
    simp only [transitionCount] at hz
    have hnoeff : ¬(s.gate.resolution = Resolution.pending ∧
        (stepEvent s e).gate.resolution ≠ Resolution.pending) := by
      intro hc
      rw [if_pos hc] at hz
      exact Nat.noConfusion (Nat.eq_zero_of_add_eq_zero_right hz)
    have hstep : (stepEvent s e).gate.resolution = Resolution.pending := by
      by_contra hne
      exact hnoeff ⟨hp, hne⟩
    rw [if_neg hnoeff, Nat.zero_add] at hz
    exact ih (stepEvent s e) hstep hz

/-- Helper: `approveTool` on a fresh pending request resolves it. -/
theorem approveTool_fresh_not_pending (hnd : Bool) (approved : Bool)
    (approvedBy : String) :
    (approveTool (freshReq hnd) approved approvedBy).gate.resolution ≠
      Resolution.pending := by
  cases approved <;> simp [approveTool, freshReq, gateResolve]

/-- Helper: the loop preserves the step bound and seals `step_limit_exceeded`
exactly when the budget is exhausted. -/
theorem runLoopFrom_inv (maxSteps : Nat) (ds : List ModelDecision) :
    ∀ steps : List AgentStep, steps.length ≤ maxSteps →
      (runLoopFrom maxSteps ds steps).steps.length ≤ maxSteps ∧
      ((runLoopFrom maxSteps ds steps).steps.length = maxSteps →
        (runLoopFrom maxSteps ds steps).status = ExecStatus.stepLimitExceeded) := by
  induction ds with
  | nil =>
    intro steps hle
    simp only [runLoopFrom]
    by_cases h : steps.length = maxSteps
    · rw [if_pos h]
      exact ⟨Nat.le_of_eq h, fun _ => rfl⟩
    · rw [if_neg h]
      exact ⟨hle, fun hc => absurd hc h⟩
  | cons d ds ih =>
    intro steps hle
    simp only [runLoopFrom]
    by_cases h : steps.length = maxSteps
    · rw [if_pos h]
      exact ⟨Nat.le_of_eq h, fun _ => rfl⟩
    · rw [if_neg h]
      cases d with
      | finalAnswer text => exact ⟨hle, fun hc => absurd hc h⟩
      | toolCall toolName args =>
        have hlt : steps.length < maxSteps := Nat.lt_of_le_of_ne hle h
        apply ih
        simp only [List.length_append, List.length_singleton]
        omega

/-- Helper: every character list starts with itself. -/
theorem leadsWith_self (l : List Char) : leadsWith l l = true := by
  induction l with
  | nil => rfl
  | cons c cs ih => simp [leadsWith, ih]

/-- Helper: a needle occurs in itself. -/
theorem occursIn_self (needle : List Char) : occursIn needle needle = true := by
  cases needle with
  | nil => rfl
  | cons c cs => simp [occursIn, leadsWith_self]

/-- Helper: a needle occurs in any text ending with it. -/
theorem occursIn_append (needle : List Char) (xs : List Char) :
    occursIn needle (xs ++ needle) = true := by
  induction xs with
  | nil => simpa using occursIn_self needle
  | cons c cs ih =>
    simp only [List.cons_append, occursIn]
    rw [show cs.append needle = cs ++ needle from rfl, ih]
    simp

/-- Helper: any string contains its own suffix. -/
theorem strContains_append (pre m : String) :
    strContains (pre ++ m) m = true :=
  occursIn_append m.data pre.data

/-- Helper: the code's step predicate agrees with the spec-worded one. -/
theorem stepWantsSources_eq (st : ChatStep) :
    stepWantsSources st = isKnowledgeSearchStep st := by
  rcases st with ⟨act, docs⟩
  cases act <;> rfl

/-- Helper: the source scanning loop of `CSRService.chat` computes exactly
the spec-worded flattening. -/
theorem extractSources_eq_specFlatten (steps : List ChatStep) :
    extractSources steps = specSourcesFlatten steps := by
  induction steps with
  | nil => rfl
  | cons st rest ih =>
    by_cases h : isKnowledgeSearchStep st = true
    · simp [extractSources, specSourcesFlatten, stepWantsSources_eq, h,
        List.filter_cons, ih]
    · have hb : isKnowledgeSearchStep st = false := by
        cases hx : isKnowledgeSearchStep st
        · rfl
        · exact absurd hx h
      simp [extractSources, specSourcesFlatten, stepWantsSources_eq, hb,
        List.filter_cons, ih]

/-! ## Claim theorems -/

/-- C1: for every ApprovalRequest the resolution transitions exactly once no
matter how many resolve attempts race against the deadline: over any event
sequence containing the deadline expiry, exactly one effective transition
occurs; a resolve call arriving after the request is already resolved leaves
the gate record unchanged (a no-op, never an error); and after
`CSRService.approveTool` resolves a request, the 30-second auto-approve timer
does not cause a second effective resolution. -/
theorem approval_resolution_exactly_once
    (hnd hnd2 : Bool) (es : List ApprovalEvent)
    (hdl : ApprovalEvent.gateDeadline ∈ es)
    (s : ReqState) (hres : s.gate.resolution ≠ Resolution.pending)
    (e : ApprovalEvent) (approved : Bool) (approvedBy : String) :
    transitionCount (freshReq hnd) es = 1 ∧
    (stepEvent s e).gate = s.gate ∧
    (timerFire (approveTool (freshReq hnd2) approved approvedBy)).gate =
      (approveTool (freshReq hnd2) approved approvedBy).gate := by
  refine ⟨?_, stepEvent_gate_stable s e hres, ?_⟩
  · have hle := transitionCount_le_one es (freshReq hnd)
    have hne : transitionCount (freshReq hnd) es ≠ 0 := by
      intro hz
      have hpend := transitionCount_zero_pending es (freshReq hnd) rfl hz
      exact runEvents_deadline_resolves es (freshReq hnd) hdl hpend
    omega
  · exact stepEvent_gate_stable
      (approveTool (freshReq hnd2) approved approvedBy)
      ApprovalEvent.autoTimerFire
      (approveTool_fresh_not_pending hnd2 approved approvedBy)

/-- Witness for C1 at a concrete race: a manual approval, the auto timer and
the gate deadline all arrive for one fresh request. -/
theorem approval_resolution_exactly_once_witness :
    transitionCount (freshReq false)
        [ApprovalEvent.manualResolve true "agent-smith",
         ApprovalEvent.autoTimerFire, ApprovalEvent.gateDeadline] = 1 ∧
    (stepEvent
        { gate := { resolution := Resolution.approved,
                    resolvedBy := some "agent-smith" }, handler := false }
        ApprovalEvent.gateDeadline).gate =
      ({ gate := { resolution := Resolution.approved,
                   resolvedBy := some "agent-smith" },
         handler := false } : ReqState).gate ∧
    (timerFire (approveTool (freshReq true) true "agent-smith")).gate =
      (approveTool (freshReq true) true "agent-smith").gate :=
  approval_resolution_exactly_once false true
    [ApprovalEvent.manualResolve true "agent-smith",
     ApprovalEvent.autoTimerFire, ApprovalEvent.gateDeadline]
    (by decide)
    { gate := { resolution := Resolution.approved,
                resolvedBy := some "agent-smith" }, handler := false }
    (by decide)
    ApprovalEvent.gateDeadline true "agent-smith"

/-- C2: a tool-approval request that receives no manual resolution is
auto-approved, not auto-denied: when `TOOL_APPROVAL_REQUESTED` fires with a
request id having no registered transport-local handler, a 30-second timer is
scheduled, and when the timer fires with still no handler registered, the
pending request is resolved to `approved` with resolver identity
`auto-timeout`. -/
theorem auto_approve_after_timeout (rid : String)
    (handlers fireHandlers : List String)
    (hrid : rid ≠ "") (hno : rid ∉ handlers) (hno2 : rid ∉ fireHandlers)
    (g : GateState) (hp : g.resolution = Resolution.pending) :
    onToolApprovalRequested (some rid) handlers =
      HandlerDecision.scheduleAutoApprove 30000 ∧
    autoTimerCallback rid fireHandlers g =
      { resolution := Resolution.approved, resolvedBy := some "auto-timeout" } := by
  constructor
  · simp [onToolApprovalRequested, jsTruthy, hrid, hno]
  · simp [autoTimerCallback, hno2, gateResolve, hp]

/-- Witness for C2 at a concrete request id with empty handler tables. -/
theorem auto_approve_after_timeout_witness :
    onToolApprovalRequested (some "approval-1") [] =
      HandlerDecision.scheduleAutoApprove 30000 ∧
    autoTimerCallback "approval-1" []
        { resolution := Resolution.pending, resolvedBy := none } =
      { resolution := Resolution.approved, resolvedBy := some "auto-timeout" } :=
  auto_approve_after_timeout "approval-1" [] [] (by decide)
    (by simp) (by simp)
    { resolution := Resolution.pending, resolvedBy := none } rfl

/-- C3: every Execution produced by a chat call has at most
`csrMaxSteps = 15` steps, and when the step count equals the budget the
status is `step_limit_exceeded`. -/
theorem execution_step_limit (decisions : List ModelDecision) :
    (csrExecute decisions).steps.length ≤ csrMaxSteps ∧
    ((csrExecute decisions).steps.length = csrMaxSteps →
      (csrExecute decisions).status = ExecStatus.stepLimitExceeded) :=
  runLoopFrom_inv csrMaxSteps decisions [] (Nat.zero_le _)

/-- Witness for C3 on a run of twenty consecutive tool calls: the Execution
stops at exactly fifteen steps with status `step_limit_exceeded`. -/
theorem execution_step_limit_witness :
    (csrExecute (List.replicate 20
        (ModelDecision.toolCall "lookupOrder" "ORD-12345"))).steps.length =
      csrMaxSteps ∧
    (csrExecute (List.replicate 20
        (ModelDecision.toolCall "lookupOrder" "ORD-12345"))).status =
      ExecStatus.stepLimitExceeded :=
  ⟨by decide,
   (execution_step_limit
     (List.replicate 20 (ModelDecision.toolCall "lookupOrder" "ORD-12345"))).2
     (by decide)⟩

/-- C4 counterexample: the claim that no raw internal exception text crosses
the transport boundary is false.  For a thrown connection error,
`CSRController.chatStream` writes an SSE `error` frame whose text contains
the raw exception message, and `CSRGateway.handleChatMessage` sends the raw
`error.message` verbatim in its `error` frame. -/
theorem raw_error_text_crosses_transport :
    chatStream (Except.error (Thrown.err "connect ECONNREFUSED 127.0.0.1:6379")) =
      SSEFrame.errorFrame "Error: connect ECONNREFUSED 127.0.0.1:6379" ∧
    strContains
        (frameText (chatStream (Except.error
          (Thrown.err "connect ECONNREFUSED 127.0.0.1:6379"))))
        "connect ECONNREFUSED 127.0.0.1:6379" = true ∧
    wsErrorMessage (Thrown.err "connect ECONNREFUSED 127.0.0.1:6379") =
      "connect ECONNREFUSED 127.0.0.1:6379" :=
  ⟨rfl, by decide, rfl⟩

/-- C4 amended: on an internal failure the SSE stream frame carries
`String(error)` — the raw exception text plus the `Error: ` marker — and the
WebSocket error frame carries `error.message` verbatim (only a non-Error
thrown value is replaced by the generic `Unknown error`); successful results
are forwarded unchanged. -/
theorem transport_error_text_verbatim (m : String) (payload : String) :
    chatStream (Except.error (Thrown.err m)) =
      SSEFrame.errorFrame ("Error: " ++ m) ∧
    strContains (frameText (chatStream (Except.error (Thrown.err m)))) m = true ∧
    chatStream (Except.ok payload) = SSEFrame.response payload ∧
    wsErrorMessage (Thrown.err m) = m ∧
    wsErrorMessage Thrown.nonError = "Unknown error" :=
  ⟨rfl, strContains_append "Error: " m, rfl, rfl, rfl⟩

/-- C5: the payload's sources field is exactly the flattening, in step order,
of the documents of every `use_tool` step invoking `searchKnowledgeBase`:
when that flattening is empty the field is omitted (`none`), otherwise it is
the flattening itself, and it is never an empty list. -/
theorem chat_sources_flattening (steps : List ChatStep) :
    (specSourcesFlatten steps = [] → chatSources steps = none) ∧
    (specSourcesFlatten steps ≠ [] →
      chatSources steps = some (specSourcesFlatten steps)) ∧
    chatSources steps ≠ some [] := by
  have hex := extractSources_eq_specFlatten steps
  refine ⟨?_, ?_, ?_⟩
  · intro h
    simp [chatSources, hex, h]
  · intro h
    have hpos : 0 < (extractSources steps).length := by
      rw [hex]
      exact List.length_pos.mpr h
    simp [chatSources, hpos, hex, h]
  · by_cases h : extractSources steps = []
    · simp [chatSources, h]
    · have hpos : 0 < (extractSources steps).length := List.length_pos.mpr h
      simp [chatSources, hpos]
      exact h

/-- Witness for C5: one knowledge-search step with two documents followed by
an unrelated tool step yields exactly those two documents as sources. -/
theorem chat_sources_flattening_witness :
    chatSources
        [{ action := some { type := "use_tool", toolName := "searchKnowledgeBase" },
           documents := some
             [{ id := "doc-1", content := "Refund policy text", score := 1,
                metadata := [] },
              { id := "doc-2", content := "Shipping policy text", score := 1,
                metadata := [] }] },
         { action := some { type := "use_tool", toolName := "lookupOrder" },
           documents := none }] =
      some (specSourcesFlatten
        [{ action := some { type := "use_tool", toolName := "searchKnowledgeBase" },
           documents := some
             [{ id := "doc-1", content := "Refund policy text", score := 1,
                metadata := [] },
              { id := "doc-2", content := "Shipping policy text", score := 1,
                metadata := [] }] },
         { action := some { type := "use_tool", toolName := "lookupOrder" },
           documents := none }]) :=
  (chat_sources_flattening
    [{ action := some { type := "use_tool", toolName := "searchKnowledgeBase" },
       documents := some
         [{ id := "doc-1", content := "Refund policy text", score := 1,
            metadata := [] },
          { id := "doc-2", content := "Shipping policy text", score := 1,
            metadata := [] }] },
     { action := some { type := "use_tool", toolName := "lookupOrder" },
       documents := none }]).2.1 (by decide)

/-- C6 counterexample: a chat call supplying the empty string as its
sessionId does not get it echoed back — the `sessionId || generated` test
treats it as absent and substitutes a generated id. -/
theorem session_id_not_echoed_for_empty :
    chatSessionId (some "") 123 = "session-123" ∧
    chatSessionId (some "") 123 ≠ "" :=
  ⟨by decide, by decide⟩

/-- C6 amended: a chat call supplying a non-empty sessionId gets it echoed
back unchanged; when the sessionId is omitted — or supplied as the empty
string — the service generates `session-` followed by the current
`Date.now()` millisecond timestamp, so the generated id is owned by the
service but is determined solely by that timestamp (two id-less calls in the
same millisecond receive the same id). -/
theorem session_id_echo_or_generated (s : String) (t : Nat) (hs : s ≠ "") :
    chatSessionId (some s) t = s ∧
    chatSessionId none t = genSessionId t ∧
    chatSessionId (some "") t = genSessionId t := by
  refine ⟨?_, rfl, ?_⟩
  · simp [chatSessionId, jsTruthy, hs]
  · simp [chatSessionId, jsTruthy]

/-- Witness for C6 at a concrete session id and timestamp. -/
theorem session_id_echo_or_generated_witness :
    chatSessionId (some "sess-42") 777 = "sess-42" ∧
    chatSessionId none 777 = genSessionId 777 ∧
    chatSessionId (some "") 777 = genSessionId 777 :=
  session_id_echo_or_generated "sess-42" 777 (by decide)

/-- C7 counterexample: when the selected backend's initialization throws, the
fallback path of `CSRService.initialize` logs nothing — its catch block
contains no logging call, so no warning records the downgrade, contrary to
the claim. -/
theorem fallback_logs_no_warning :
    (csrServiceInit false true).2 = [] ∧
    (csrServiceInit false true).1.usingLocal = true :=
  ⟨rfl, rfl⟩

/-- C7 amended: if the selected backend's initialization throws,
`CSRService.initialize` substitutes the local in-memory backend silently —
the caller never sees the failure, no warning is logged (the downgrade goes
unrecorded), `health()` still returns status `ok`, and subsequent search
calls operate against the fallback store (content ingested after the
fallback is found). -/
theorem fallback_on_init_failure (pLocal : Bool) (title content q : String)
    (hq : strContains (title ++ "\n\n" ++ content) q = true) :
    (csrServiceInit pLocal true).1.usingLocal = true ∧
    (csrServiceInit pLocal true).2 = [] ∧
    healthEndpoint (csrServiceInit pLocal true).1 = "ok" ∧
    (title ++ "\n\n" ++ content) ∈
      ragSearch (ingestDocument (csrServiceInit pLocal true).1 title content) q := by
  refine ⟨rfl, rfl, rfl, ?_⟩
  have hsearch :
      ragSearch (ingestDocument (csrServiceInit pLocal true).1 title content) q =
        [title ++ "\n\n" ++ content] := by
    simp [ragSearch, ingestDocument, csrServiceInit, List.filter_cons, hq]
  rw [hsearch]
  exact List.mem_singleton.mpr rfl

/-- Witness for C7: the refund policy document ingested after the fallback is
found by a search for `refunds`. -/
theorem fallback_on_init_failure_witness :
    (csrServiceInit false true).1.usingLocal = true ∧
    (csrServiceInit false true).2 = [] ∧
    healthEndpoint (csrServiceInit false true).1 = "ok" ∧
    ("Refund Policy" ++ "\n\n" ++ "Full refunds within 30 days of purchase.") ∈
      ragSearch (ingestDocument (csrServiceInit false true).1 "Refund Policy"
        "Full refunds within 30 days of purchase.") "refunds" :=
  fallback_on_init_failure false "Refund Policy"
    "Full refunds within 30 days of purchase." "refunds" (by decide)

/-- C8: a query on which the underlying search throws never propagates the
exception: the tool returns `success: false` with an error summary and an
empty documents list (the embedding is a total function into
`KBSearchResult`, so no exception reaches the AgentLoop). -/
theorem search_failure_contained (query : String) (t : Thrown) :
    searchKnowledgeBase query (Except.error t) =
      { success := false, query := none, documents := [],
        totalResults := none, error := some (jsErrorMessage t) } ∧
    (searchKnowledgeBase query (Except.error t)).error ≠ none := by
  refine ⟨rfl, ?_⟩
  simp [searchKnowledgeBase]

/-- Witness for C8 at a concrete failing query. -/
theorem search_failure_contained_witness :
    searchKnowledgeBase "refund policy"
        (Except.error (Thrown.err "fetch failed")) =
      { success := false, query := none, documents := [],
        totalResults := none, error := some "fetch failed" } ∧
    (searchKnowledgeBase "refund policy"
        (Except.error (Thrown.err "fetch failed"))).error ≠ none :=
  search_failure_contained "refund policy" (Thrown.err "fetch failed")

/-- C9: a WebSocket `message` frame whose `text` field is missing or not a
string yields exactly one `error` frame to that client; the gateway does not
close the connection and starts no chat processing. -/
theorem invalid_text_yields_error_frame (t : JsVal)
    (h : JsVal.isStr t = false) :
    handleMessage "message" t =
      [GatewayAction.sendFrame "error" "Invalid message: text is required"] ∧
    GatewayAction.closeConnection ∉ handleMessage "message" t ∧
    (∀ s : String, GatewayAction.startChat s ∉ handleMessage "message" t) := by
  have hmain : handleMessage "message" t =
      [GatewayAction.sendFrame "error" "Invalid message: text is required"] := by
    cases t <;> simp_all [handleMessage, JsVal.isStr]
  refine ⟨hmain, ?_, ?_⟩
  · rw [hmain]; simp
  · intro s; rw [hmain]; simp

/-- Witness for C9 at a missing `text` field. -/
theorem invalid_text_yields_error_frame_witness :
    handleMessage "message" JsVal.undef =
      [GatewayAction.sendFrame "error" "Invalid message: text is required"] ∧
    GatewayAction.closeConnection ∉ handleMessage "message" JsVal.undef ∧
    (∀ s : String, GatewayAction.startChat s ∉ handleMessage "message" JsVal.undef) :=
  invalid_text_yields_error_frame JsVal.undef rfl

/-- C10: the REST approve endpoint answers `success: true` unconditionally
for validated input — when the requestId matches no request in the gate's
table the call changes nothing and still answers `success: true`, because
`CSRService.approveTool` returns void and never signals whether the id was
known. -/
theorem approve_endpoint_always_success (s : ServiceState) (rid : String)
    (approved : Bool) (approvedBy : String) :
    (approveEndpoint s rid approved approvedBy).2 = true ∧
    (rid ∉ s.requests.map Prod.fst →
      (approveEndpoint s rid approved approvedBy).1.requests = s.requests) := by
  refine ⟨rfl, ?_⟩
  intro hunknown
  have hfix : ∀ (reqs : List (String × GateState)) (tgt : Resolution)
      (who : Option String), rid ∉ reqs.map Prod.fst →
      runtimeResolve reqs rid tgt who = reqs := by
    intro reqs
    induction reqs with
    | nil => intro tgt who _; rfl
    | cons p ps ih =>
      intro tgt who hun
      simp only [List.map_cons, List.mem_cons, not_or] at hun
      show List.map _ (p :: ps) = p :: ps
      rw [List.map_cons]
      have h1 : ¬(p.1 = rid) := fun he => hun.1 he.symm
      have h2 : runtimeResolve ps rid tgt who = ps := ih tgt who hun.2
      simp only [if_neg h1]
      rw [show List.map (fun q =>
        if q.1 = rid then (q.1, gateResolve q.2 tgt who) else q) ps =
        runtimeResolve ps rid tgt who from rfl, h2]
  simp only [approveEndpoint, serviceApproveTool]
  cases approved
  · simp only [Bool.false_eq_true, if_false]
    exact hfix s.requests Resolution.rejected none hunknown
  · simp only [if_true]
    exact hfix s.requests Resolution.approved (some approvedBy) hunknown

/-- Witness for C10 at a concrete table holding one pending request and an
unknown request id. -/
theorem approve_endpoint_always_success_witness :
    (approveEndpoint
        { requests := [("approval-1",
            { resolution := Resolution.pending, resolvedBy := none })],
          handlers := [] } "missing-id" true "agent-smith").2 = true ∧
    (approveEndpoint
        { requests := [("approval-1",
            { resolution := Resolution.pending, resolvedBy := none })],
          handlers := [] } "missing-id" true "agent-smith").1.requests =
      [("approval-1", { resolution := Resolution.pending, resolvedBy := none })] :=
  ⟨(approve_endpoint_always_success
      { requests := [("approval-1",
          { resolution := Resolution.pending, resolvedBy := none })],
        handlers := [] } "missing-id" true "agent-smith").1,
   (approve_endpoint_always_success
      { requests := [("approval-1",
          { resolution := Resolution.pending, resolvedBy := none })],
        handlers := [] } "missing-id" true "agent-smith").2 (by decide)⟩

end HazelCSR
